import Mathlib

/-!
# Verification of the react-resizable-panels panel-group layout engine

Shallow embedding of `PanelGroup` (the panel-group layout and resize engine)
and the utility functions it calls.  Percentage sizes are modelled as
rationals (`ℚ`); the JavaScript `Map<string, PanelData>` is modelled as an
insertion-ordered association list; React state updates are modelled as pure
state-transition functions on an explicit `GroupState`; a thrown `Error`
is modelled as `Except.error`.

Functions of the repository that are visible in the source
(`PanelGroup`'s effects and callbacks) are translated directly.  Utility
functions that live in modules absent from the available source
(`utils/group`, `utils/serialization`, `utils/coordinates`) are modelled
from the specification and carry a doc comment saying so.
-/

/-- Direction of a panel group's main axis (`types.ts`). -/
inductive Direction where
  | horizontal
  | vertical
deriving DecidableEq, Repr

/-- One registered panel (`PanelData` of `types.ts`, whose source is absent;
field set taken from the spec's PanelSpec: id, order, default size,
min/max size, collapsible).  Sizes are percentages in `[0, 100]`;
`defaultSize = none` means the panel shares the remaining space. -/
structure PanelData where
  id : String
  order : Option Nat
  defaultSize : Option ℚ
  minSize : ℚ
  maxSize : ℚ
  collapsible : Bool
deriving DecidableEq, Repr

/-- The panels map: a JavaScript `Map<string, PanelData>` preserves insertion
order, so it is modelled as an association list in registration order with
unique keys. -/
abbrev PanelsMap := List (String × PanelData)

/-- `Map.has(id)`. -/
def hasPanel (panels : PanelsMap) (id : String) : Bool :=
  panels.any fun kv => kv.1 == id

/-- Comparison used to sort panels deterministically: by the explicit `order`
hint when both panels carry one, otherwise registration order is kept
(comparison says "keep"). -/
def panelOrderLe (a b : PanelData) : Prop :=
  match a.order, b.order with
  | some x, some y => x ≤ y
  | _, _ => True

instance : DecidableRel panelOrderLe := fun a b => by
  unfold panelOrderLe
  cases a.order <;> cases b.order <;> infer_instance

/-- Modelled from the spec: `panelsMapToSortedArray` (`utils/group`, absent
from the available source).  "insertion order irrelevant, iteration always
performed via a deterministic sort (by `order`, falling back to
DOM/registration sequence)": a stable sort of the map's values by `order`. -/
def panelsMapToSortedArray (panels : PanelsMap) : List PanelData :=
  (panels.map Prod.snd).insertionSort panelOrderLe

/-- The group's committed state: the `panels` and `sizes` React state of
`PanelGroup` plus the drag-session state (`activeHandleId` state and
`dragOffsetRef`). -/
structure GroupState where
  direction : Direction
  panels : PanelsMap
  sizes : List ℚ
  activeHandleId : Option String
  dragOffset : ℚ
deriving DecidableEq, Repr

/-- `panelsWithNullDefaultSize` of the initial-size effect: the number of
panels whose `defaultSize` is `null`. -/
def nullDefaultCount (pa : List PanelData) : ℕ :=
  (pa.filter fun p => p.defaultSize.isNone).length

/-- `totalDefaultSize` of the initial-size effect: the sum of the explicit
(`non-null`) `defaultSize` values. -/
def totalDefaultSize (pa : List PanelData) : ℚ :=
  (pa.map fun p => p.defaultSize.getD 0).sum

/-- `totalMinSize` of the initial-size effect: the sum of all `minSize`
values. -/
def totalMinSize (pa : List PanelData) : ℚ :=
  (pa.map fun p => p.minSize).sum

/-- The default-size branch of `PanelGroup`'s initial-size `useLayoutEffect`:
fails when the defaults sum over 100 or the minimums sum over 100 (the two
`throw new Error` branches), otherwise maps each panel to its explicit
default, or to `(100 - totalDefaultSize) / panelsWithNullDefaultSize` when
it has none. -/
def computeInitialSizesFromDefaults (pa : List PanelData) : Except String (List ℚ) :=
  if totalDefaultSize pa > 100 then
    .error "The sum of the defaultSize of all panels in a group cannot exceed 100."
  else if totalMinSize pa > 100 then
    .error "The sum of the minSize of all panels in a group cannot exceed 100."
  else
    .ok (pa.map fun p =>
      match p.defaultSize with
      | none => (100 - totalDefaultSize pa) / (nullDefaultCount pa : ℚ)
      | some d => d)

/-- The persistence store: a key-value map from the `autoSaveId`-derived key
to the saved layout, itself a list of `(panelId, sizePercent)` pairs. -/
abbrev Store := List (String × List (String × ℚ))

/-- Modelled from the spec: `loadPanelLayout` (`utils/serialization`, absent
from the available source).  Reads the mapping stored for the group key,
"validates that its key set exactly equals the current panel id set;
returns none on any mismatch, parse failure, or absence". -/
def loadPanelLayout (autoSaveId : String) (pa : List PanelData) (store : Store) : Option (List ℚ) :=
  match store.lookup autoSaveId with
  | none => none
  | some saved =>
      if saved.map Prod.fst = pa.map PanelData.id then
        some (saved.map Prod.snd)
      else
        none

/-- Modelled from the spec: `savePanelGroupLayout` (`utils/serialization`,
absent from the available source).  "writes `panelId -> sizePercent` for the
current panel set under a key derived from the group's persistence
identifier". -/
def savePanelGroupLayout (autoSaveId : String) (pa : List PanelData) (sizes : List ℚ) (store : Store) : Store :=
  (autoSaveId, (pa.map PanelData.id).zip sizes) :: store.filter fun kv => kv.1 != autoSaveId

/-- `PanelGroup`'s initial-size `useLayoutEffect`: returns unchanged when the
layout is already settled (`sizes.length === panels.size`); otherwise tries a
persisted restore when `autoSaveId` is configured and adopts it when it
loads; otherwise falls back to the default-size computation, whose
configuration errors propagate (a thrown `Error` is `Except.error`; an
error commits no sizes). -/
def initialSizeEffect (autoSaveId : Option String) (store : Store) (st : GroupState) : Except String GroupState :=
  if st.sizes.length = st.panels.length then
    .ok st
  else
    let panelsArray := panelsMapToSortedArray st.panels
    let defaultSizes : Option (List ℚ) :=
      match autoSaveId with
      | some key => loadPanelLayout key panelsArray store
      | none => none
    match defaultSizes with
    | some ds => .ok { st with sizes := ds }
    | none =>
        match computeInitialSizesFromDefaults panelsArray with
        | .ok s => .ok { st with sizes := s }
        | .error e => .error e

/-- `PanelGroup`'s save `useEffect`: when `autoSaveId` is configured and the
layout is settled (non-empty `sizes` matching `panels.size`), mirrors the
committed layout to the store; otherwise leaves the store untouched. -/
def saveSizesEffect (autoSaveId : Option String) (st : GroupState) (store : Store) : Store :=
  match autoSaveId with
  | none => store
  | some key =>
      if st.sizes.length = 0 ∨ st.sizes.length ≠ st.panels.length then
        store
      else
        savePanelGroupLayout key (panelsMapToSortedArray st.panels) st.sizes store

/-- `registerPanel` of `PanelGroup`: adds the panel unless the id is already
present, in which case the previous map is returned unchanged (the same
reference, so no dependent effect re-runs). -/
def registerPanel (id : String) (panel : PanelData) (prevPanels : PanelsMap) : PanelsMap :=
  if hasPanel prevPanels id then
    prevPanels
  else
    prevPanels ++ [(id, panel)]

/-- `unregisterPanel` of `PanelGroup`: removes the entry for `id` from the
panels map (a JavaScript `Map.delete` preserves the order of the remaining
entries); returns the previous map unchanged when `id` is absent.  It
updates only the panels state: the `sizes` state is not touched here. -/
def unregisterPanel (id : String) (prevPanels : PanelsMap) : PanelsMap :=
  if !(hasPanel prevPanels id) then
    prevPanels
  else
    prevPanels.filter fun kv => kv.1 != id

/-- The effect of the `unregisterPanel` callback on the whole group state:
it calls `setPanels` only, so `sizes`, the drag session and the direction
are untouched. -/
def unregisterPanelEffect (id : String) (st : GroupState) : GroupState :=
  { st with panels := unregisterPanel id st.panels }

/-- The effect of the `registerPanel` callback on the whole group state:
it calls `setPanels` only. -/
def registerPanelEffect (id : String) (panel : PanelData) (st : GroupState) : GroupState :=
  { st with panels := registerPanel id panel st.panels }

/-- `startDragging` of the group context: unconditionally stores the handle
id as the active handle and captures the drag offset (`getDragOffset` reads
the DOM, so its result is the `offset` argument here). -/
def startDragging (id : String) (offset : ℚ) (st : GroupState) : GroupState :=
  { st with activeHandleId := some id, dragOffset := offset }

/-- `stopDragging` of the group context: clears the active handle. -/
def stopDragging (st : GroupState) : GroupState :=
  { st with activeHandleId := none }

/-- Modelled from the spec: how much a panel at the given current size can
shrink — down to 0 when `collapsible`, otherwise down to its `minSize`
(never negative). -/
def shrinkCapacity (p : PanelData) (size : ℚ) : ℚ :=
  if p.collapsible then max size 0 else max (size - p.minSize) 0

/-- Modelled from the spec: how much a panel at the given current size can
grow — up to its `maxSize` (never negative). -/
def growCapacity (p : PanelData) (size : ℚ) : ℚ :=
  max (p.maxSize - size) 0

/-- Modelled from the spec: the total amount a chain of panels (each paired
with its current size) can supply by shrinking, cascading past saturated
panels. -/
def chainShrinkCapacity (chain : List (PanelData × ℚ)) : ℚ :=
  (chain.map fun ps => shrinkCapacity ps.1 ps.2).sum

/-- Modelled from the spec: shrink the panels of the chain in order, each
supplying as much of the remaining amount as its capacity allows, cascading
the excess to the next panel of the chain. -/
def applyShrink : List (PanelData × ℚ) → ℚ → List ℚ
  | [], _ => []
  | (p, s) :: rest, amt =>
      let take := min amt (shrinkCapacity p s)
      (s - take) :: applyShrink rest (amt - take)

/-- Modelled from the spec: the resolved effective delta of the delta
distribution algorithm (`adjustByDelta` of `utils/group`, absent from the
available source).  The requested delta is clamped to the largest magnitude
that the growing panel's headroom and the shrinking chain's cascade capacity
can absorb simultaneously; a positive delta grows the panel before the
handle and shrinks the chain from the panel after it onward, a negative
delta grows the panel after the handle and shrinks the chain from the panel
before it backward.  It is 0 when either pivot id is missing. -/
def resolvedEffectiveDelta (panels : PanelsMap) (idBefore idAfter : String)
    (delta : ℚ) (sizes : List ℚ) : ℚ :=
  let arr := panelsMapToSortedArray panels
  let paired := arr.zip sizes
  let beforeIdx := arr.findIdx fun p => p.id = idBefore
  let afterIdx := arr.findIdx fun p => p.id = idAfter
  if delta ≥ 0 then
    match paired.get? beforeIdx with
    | none => 0
    | some gp =>
        min delta (min (chainShrinkCapacity (paired.drop afterIdx)) (growCapacity gp.1 gp.2))
  else
    match paired.get? afterIdx with
    | none => 0
    | some gp =>
        -(min (-delta)
            (min (chainShrinkCapacity ((paired.take (beforeIdx + 1)).reverse)) (growCapacity gp.1 gp.2)))

/-- Modelled from the spec: apply a non-zero resolved effective delta —
grow the pivot panel by the effective amount and take the same total from
the shrinking chain, cascading past saturated panels, so the pair (or
chain) stays zero-sum. -/
def applyEffectiveDelta (panels : PanelsMap) (idBefore idAfter : String)
    (eff : ℚ) (sizes : List ℚ) : List ℚ :=
  let arr := panelsMapToSortedArray panels
  let paired := arr.zip sizes
  let beforeIdx := arr.findIdx fun p => p.id = idBefore
  let afterIdx := arr.findIdx fun p => p.id = idAfter
  if eff > 0 then
    match paired.get? beforeIdx with
    | none => sizes
    | some gp =>
        (sizes.take afterIdx ++ applyShrink (paired.drop afterIdx) eff).set beforeIdx (gp.2 + eff)
  else
    match paired.get? afterIdx with
    | none => sizes
    | some gp =>
        ((applyShrink ((paired.take (beforeIdx + 1)).reverse) (-eff)).reverse
            ++ sizes.drop (beforeIdx + 1)).set afterIdx (gp.2 + eff)

/-- Modelled from the spec: `adjustByDelta` (`utils/group`, absent from the
available source).  "The algorithm must clamp the effective delta to the
largest magnitude that satisfies, simultaneously, for every panel whose
size changes" its bounds, cascading past saturated panels; "if the resolved
effective delta is exactly zero, the function returns the same input
sequence by identity (not a new equal-valued copy)" — modelled by returning
the input term itself on that branch. -/
def adjustByDelta (panels : PanelsMap) (idBefore idAfter : String)
    (delta : ℚ) (sizes : List ℚ) : List ℚ :=
  if resolvedEffectiveDelta panels idBefore idAfter delta sizes = 0 then
    sizes
  else
    applyEffectiveDelta panels idBefore idAfter
      (resolvedEffectiveDelta panels idBefore idAfter delta sizes) sizes

/-- The `resizeHandler` closure produced by `registerResizeHandle` of
`PanelGroup`.  The DOM reads are modelled as arguments: `idBefore`/`idAfter`
are the result of `getResizeHandlePanelIds`, `movement` the result of
`getMovement`, and `groupSize` the group rectangle's main-axis extent.
The handler bails out when either pivot id is missing or the movement is 0;
otherwise it converts the movement to a percentage delta, runs
`adjustByDelta`, and commits the result only when it differs from the
previous sizes (the source compares references; identity implies equality,
which is what a value model observes). -/
def resizeHandler (idBefore idAfter : Option String) (movement groupSize : ℚ)
    (st : GroupState) : GroupState :=
  match idBefore, idAfter with
  | some b, some a =>
      if movement = 0 then
        st
      else
        let delta := movement / groupSize * 100
        let nextSizes := adjustByDelta st.panels b a delta st.sizes
        if st.sizes ≠ nextSizes then
          { st with sizes := nextSizes }
        else
          st
  | _, _ => st

/-! ## Concrete fixtures used by witnesses and counterexamples -/

/-- A panel with no explicit default size, `minSize` 0, `maxSize` 100. -/
def unsetPanel (id : String) : PanelData :=
  ⟨id, none, none, 0, 100, false⟩

/-- A panel with an explicit default size, `minSize` 0, `maxSize` 100. -/
def defaultPanel (id : String) (d : ℚ) : PanelData :=
  ⟨id, none, some d, 0, 100, false⟩

/-- Three panels, none with an explicit default. -/
def demoThreePanels : List PanelData :=
  [unsetPanel "p1", unsetPanel "p2", unsetPanel "p3"]

/-- Two panels: one explicit default of 70, the other unset. -/
def demoTwoPanels : List PanelData :=
  [defaultPanel "p1" 70, unsetPanel "p2"]

/-- Two panels whose explicit defaults sum to 110. -/
def overfullState : GroupState :=
  ⟨.horizontal, [("p1", defaultPanel "p1" 60), ("p2", defaultPanel "p2" 50)], [], none, 0⟩

/-- A panel whose `minSize` (50) exceeds its `maxSize` (10). -/
def badMinMaxPanel : PanelData :=
  ⟨"p1", none, none, 50, 10, false⟩

/-- A one-panel group whose only panel has `minSize > maxSize`, not yet
sized. -/
def badMinMaxState : GroupState :=
  ⟨.horizontal, [("p1", badMinMaxPanel)], [], none, 0⟩

/-! ## Helper lemmas -/

/-- The default-size computation fails exactly on the two checked sums. -/
theorem computeInitialSizes_error_of_bad_config (pa : List PanelData)
    (h : totalDefaultSize pa > 100 ∨ totalMinSize pa > 100) :
    ∃ e, computeInitialSizesFromDefaults pa = .error e := by
  unfold computeInitialSizesFromDefaults
  by_cases h1 : totalDefaultSize pa > 100
  · rw [if_pos h1]
    exact ⟨_, rfl⟩
  · rcases h with h | h
    · exact absurd h h1
    · rw [if_neg h1, if_pos h]
      exact ⟨_, rfl⟩

/-- Filtering out a key removes every panel carrying it. -/
theorem hasPanel_filter_ne (l : PanelsMap) (id : String) :
    hasPanel (l.filter fun kv => kv.1 != id) id = false := by
  simp [hasPanel, List.any_eq_true, List.mem_filter]

/-! ## Claim theorems -/

/-- C1: In the initial-size computation, when no persisted layout is adopted
and no configuration error fires, every panel with an explicit default size
receives exactly that value and every panel without one receives
`(100 - totalDefault) / nullCount`; in particular three unset panels each
receive 100/3 and, next to one default of 70, the unset panel receives
30. -/
theorem initial_default_size_distribution :
    (∀ (pa : List PanelData) (s : List ℚ),
        computeInitialSizesFromDefaults pa = .ok s →
        s = pa.map fun p =>
          match p.defaultSize with
          | none => (100 - totalDefaultSize pa) / (nullDefaultCount pa : ℚ)
          | some d => d) ∧
    computeInitialSizesFromDefaults demoThreePanels = .ok [100 / 3, 100 / 3, 100 / 3] ∧
    computeInitialSizesFromDefaults demoTwoPanels = .ok [70, 30] := by
  refine ⟨?_, ?_, ?_⟩
  · intro pa s h
    unfold computeInitialSizesFromDefaults at h
    split at h
    · simp at h
    · split at h
      · simp at h
      · simpa using h.symm
  · simp [computeInitialSizesFromDefaults, totalDefaultSize, totalMinSize,
      nullDefaultCount, demoThreePanels, unsetPanel]
    norm_num
  · simp [computeInitialSizesFromDefaults, totalDefaultSize, totalMinSize,
      nullDefaultCount, demoTwoPanels, unsetPanel, defaultPanel]
    norm_num

/-- Witness for C1: the general formula applied to the concrete two-panel
group with one default of 70. -/
theorem initial_default_size_distribution_witness :
    [(70 : ℚ), 30] = demoTwoPanels.map fun p =>
      match p.defaultSize with
      | none => (100 - totalDefaultSize demoTwoPanels) / (nullDefaultCount demoTwoPanels : ℚ)
      | some d => d :=
  initial_default_size_distribution.1 demoTwoPanels [70, 30]
    initial_default_size_distribution.2.2

/-- C2: during the initial-size computation from defaults (no persisted
layout adopted, layout not yet settled), a defaults sum over 100 or a
minimums sum over 100 raises a configuration error and no size is committed
(the effect never produces an `ok` state). -/
theorem initial_config_error_before_commit (st : GroupState) (autoSaveId : Option String)
    (store : Store)
    (hlen : st.sizes.length ≠ st.panels.length)
    (hload : (match autoSaveId with
              | some key => loadPanelLayout key (panelsMapToSortedArray st.panels) store
              | none => none) = none)
    (hbad : totalDefaultSize (panelsMapToSortedArray st.panels) > 100 ∨
            totalMinSize (panelsMapToSortedArray st.panels) > 100) :
    ∃ e, initialSizeEffect autoSaveId store st = .error e ∧
      ∀ st2 : GroupState, initialSizeEffect autoSaveId store st ≠ .ok st2 := by
  obtain ⟨e, he⟩ := computeInitialSizes_error_of_bad_config _ hbad
  refine ⟨e, ?_⟩
  have hres : initialSizeEffect autoSaveId store st = .error e := by
    unfold initialSizeEffect
    rw [if_neg hlen]
    simp only [hload, he]
  exact ⟨hres, fun st2 hok => by rw [hres] at hok; exact absurd hok (by simp)⟩

/-- Witness for C2: defaults of 60 and 50 on a two-panel group without
persistence raise the configuration error before any size is committed. -/
theorem initial_config_error_before_commit_witness :
    ∃ e, initialSizeEffect none [] overfullState = .error e ∧
      ∀ st2 : GroupState, initialSizeEffect none [] overfullState ≠ .ok st2 :=
  initial_config_error_before_commit overfullState none []
    (by simp [overfullState])
    rfl
    (Or.inl (by
      simp [overfullState, panelsMapToSortedArray, List.insertionSort, List.orderedInsert,
        panelOrderLe, defaultPanel, totalDefaultSize]
      norm_num))

/-- C3 counterexample: a panel with `minSize` 50 `>` `maxSize` 10 is not
surfaced as a configuration error — the initial-size computation succeeds
and commits a size, unlike the two sum checks. -/
theorem min_above_max_not_rejected :
    badMinMaxPanel.minSize > badMinMaxPanel.maxSize ∧
    computeInitialSizesFromDefaults [badMinMaxPanel] = .ok [100] ∧
    initialSizeEffect none [] badMinMaxState = .ok { badMinMaxState with sizes := [100] } := by
  refine ⟨by norm_num [badMinMaxPanel], ?_, ?_⟩
  · simp [computeInitialSizesFromDefaults, totalDefaultSize, totalMinSize,
      nullDefaultCount, badMinMaxPanel]
    norm_num
  · have h1 : computeInitialSizesFromDefaults (panelsMapToSortedArray badMinMaxState.panels) =
        .ok [100] := by
      simp [badMinMaxState, panelsMapToSortedArray, List.insertionSort, List.orderedInsert,
        computeInitialSizesFromDefaults, totalDefaultSize, totalMinSize, nullDefaultCount,
        badMinMaxPanel]
      norm_num
    unfold initialSizeEffect
    rw [if_neg (by simp [badMinMaxState])]
    simp only [h1]

/-- C3 amended: the initial-size computation checks only the two sums; a
panel with `minSizePercent > maxSizePercent` raises no configuration error,
and the computation succeeds whenever the two sum checks pass. -/
theorem min_above_max_not_checked (pa : List PanelData) (p : PanelData)
    (_hp : p ∈ pa) (_hmm : p.minSize > p.maxSize)
    (h1 : ¬ totalDefaultSize pa > 100) (h2 : ¬ totalMinSize pa > 100) :
    ∃ s, computeInitialSizesFromDefaults pa = .ok s := by
  unfold computeInitialSizesFromDefaults
  rw [if_neg h1, if_neg h2]
  exact ⟨_, rfl⟩

/-- Witness for the amended C3: the computation succeeds on the concrete
panel with `minSize` 50 `>` `maxSize` 10. -/
theorem min_above_max_not_checked_witness :
    ∃ s, computeInitialSizesFromDefaults [badMinMaxPanel] = .ok s :=
  min_above_max_not_checked [badMinMaxPanel] badMinMaxPanel
    (by simp)
    (by norm_num [badMinMaxPanel])
    (by simp [totalDefaultSize, badMinMaxPanel])
    (by simp [totalMinSize, badMinMaxPanel]; norm_num)

/-- Two unset panels in registration order, used for resize fixtures. -/
def demoPanelsMap : PanelsMap :=
  [("p1", unsetPanel "p1"), ("p2", unsetPanel "p2")]

/-- A settled two-panel group at 50/50, not dragging. -/
def demoState : GroupState :=
  ⟨.horizontal, demoPanelsMap, [50, 50], none, 0⟩

/-- C4: when the resolved effective delta is exactly zero, `adjustByDelta`
returns the input sizes sequence itself (identity is modelled as returning
the input term), and the resize handler, whose commit is guarded by a
comparison with the previous sizes, leaves the group state unchanged. -/
theorem adjust_zero_delta_identity (panels : PanelsMap) (idBefore idAfter : String)
    (delta : ℚ) (sizes : List ℚ)
    (h : resolvedEffectiveDelta panels idBefore idAfter delta sizes = 0) :
    adjustByDelta panels idBefore idAfter delta sizes = sizes ∧
    ∀ (st : GroupState) (movement groupSize : ℚ),
      st.panels = panels → st.sizes = sizes →
      movement / groupSize * 100 = delta →
      resizeHandler (some idBefore) (some idAfter) movement groupSize st = st := by
  have h1 : adjustByDelta panels idBefore idAfter delta sizes = sizes := by
    unfold adjustByDelta
    rw [if_pos h]
  refine ⟨h1, ?_⟩
  intro st movement groupSize hp hs hd
  by_cases hm : movement = 0
  · simp [resizeHandler, hm]
  · simp only [resizeHandler]
    rw [if_neg hm]
    simp only [hp, hs, hd, h1]
    rw [if_neg (by simp)]

/-- Witness for C4: a requested delta of 0 on the 50/50 two-panel group
resolves to an effective delta of 0, `adjustByDelta` returns the input
sizes, and the handler leaves the state unchanged. -/
theorem adjust_zero_delta_identity_witness :
    adjustByDelta demoPanelsMap "p1" "p2" 0 [50, 50] = [50, 50] ∧
    resizeHandler (some "p1") (some "p2") 0 200 demoState = demoState := by
  have h0 : resolvedEffectiveDelta demoPanelsMap "p1" "p2" 0 [50, 50] = 0 := by
    simp [resolvedEffectiveDelta, demoPanelsMap, panelsMapToSortedArray,
      List.insertionSort, List.orderedInsert, panelOrderLe, unsetPanel,
      List.findIdx, List.findIdx.go, chainShrinkCapacity, shrinkCapacity, growCapacity]
  have h := adjust_zero_delta_identity demoPanelsMap "p1" "p2" 0 [50, 50] h0
  exact ⟨h.1, h.2 demoState 0 200 rfl rfl (by norm_num)⟩

/-- C5: a resize event whose computed movement is 0 is a no-op: the handler
returns before any size recomputation or commit, leaving the group state
unchanged. -/
theorem zero_movement_noop (idBefore idAfter : Option String) (groupSize : ℚ)
    (st : GroupState) :
    resizeHandler idBefore idAfter 0 groupSize st = st := by
  unfold resizeHandler
  cases idBefore <;> cases idAfter <;> simp

/-- A store holding a saved layout for key "group1" matching the panel ids
of `overfullState`. -/
def persistedStore : Store :=
  [("group1", [("p1", 20), ("p2", 80)])]

/-- C6: when persistence is configured and a saved layout loads successfully
for the current panel set, the initial-size effect adopts the loaded sizes
and stops — the default-size computation and its configuration-error checks
are not executed (the conclusion holds for every configuration, including
ones the default path would reject). -/
theorem persisted_layout_adopted (st : GroupState) (store : Store) (key : String)
    (ds : List ℚ)
    (hlen : st.sizes.length ≠ st.panels.length)
    (hload : loadPanelLayout key (panelsMapToSortedArray st.panels) store = some ds) :
    initialSizeEffect (some key) store st = .ok { st with sizes := ds } := by
  unfold initialSizeEffect
  rw [if_neg hlen]
  simp only [hload]

/-- Witness for C6: a saved 20/80 layout is adopted for a group whose
defaults sum to 110, so the fail-fast check of the default path never
fires. -/
theorem persisted_layout_adopted_witness :
    initialSizeEffect (some "group1") persistedStore overfullState =
      .ok { overfullState with sizes := [20, 80] } ∧
    totalDefaultSize (panelsMapToSortedArray overfullState.panels) > 100 := by
  constructor
  · exact persisted_layout_adopted overfullState persistedStore "group1" [20, 80]
      (by simp [overfullState])
      (by simp [loadPanelLayout, persistedStore, overfullState, panelsMapToSortedArray,
        List.insertionSort, List.orderedInsert, panelOrderLe, defaultPanel, List.lookup])
  · simp [overfullState, panelsMapToSortedArray, List.insertionSort, List.orderedInsert,
      panelOrderLe, defaultPanel, totalDefaultSize]
    norm_num

/-- C7: registering an id that is already present is a no-op — the previous
panels map is returned unchanged (the same reference in the source, so no
size recomputation is triggered), and the whole group state is unchanged. -/
theorem register_idempotent (id : String) (panel : PanelData) (prevPanels : PanelsMap)
    (h : hasPanel prevPanels id = true) :
    registerPanel id panel prevPanels = prevPanels ∧
    ∀ st : GroupState, st.panels = prevPanels → registerPanelEffect id panel st = st := by
  have h1 : registerPanel id panel prevPanels = prevPanels := by
    unfold registerPanel
    rw [if_pos h]
  refine ⟨h1, ?_⟩
  intro st hst
  unfold registerPanelEffect
  rw [hst, h1, ← hst]

/-- Witness for C7: re-registering "p1" on the demo two-panel map leaves the
map and the demo state unchanged. -/
theorem register_idempotent_witness :
    registerPanel "p1" (unsetPanel "p1") demoPanelsMap = demoPanelsMap ∧
    registerPanelEffect "p1" (unsetPanel "p1") demoState = demoState := by
  have h := register_idempotent "p1" (unsetPanel "p1") demoPanelsMap
    (by simp [hasPanel, demoPanelsMap])
  exact ⟨h.1, h.2 demoState rfl⟩

/-- A settled two-panel group at 70/30, used for the unregister
counterexample. -/
def preUnregisterState : GroupState :=
  ⟨.horizontal, [("p1", defaultPanel "p1" 70), ("p2", unsetPanel "p2")], [70, 30], none, 0⟩

/-- C8 counterexample: unregistering "p2" removes it from the panels map,
but the sizes sequence keeps both entries — the panel's size entry is not
removed by `unregisterPanel` (it is only recomputed later by the
initial-size effect). -/
theorem unregister_keeps_size_entry :
    hasPanel preUnregisterState.panels "p2" = true ∧
    (unregisterPanelEffect "p2" preUnregisterState).panels = [("p1", defaultPanel "p1" 70)] ∧
    (unregisterPanelEffect "p2" preUnregisterState).sizes = [70, 30] ∧
    (unregisterPanelEffect "p2" preUnregisterState).sizes ≠ [(70 : ℚ)] := by
  refine ⟨by simp [hasPanel, preUnregisterState], ?_, rfl,
    by simp [unregisterPanelEffect, unregisterPanel, preUnregisterState]⟩
  simp [unregisterPanelEffect, unregisterPanel, hasPanel, preUnregisterState]

/-- C8 amended: for every id present in the group, `unregisterPanel` removes
the panel from the panels map, while the sizes sequence is left untouched by
the unregister callback itself (the next initial-size pass recomputes it,
since the lengths no longer match). -/
theorem unregister_removes_panel_only (id : String) (st : GroupState)
    (h : hasPanel st.panels id = true) :
    (unregisterPanelEffect id st).panels = st.panels.filter (fun kv => kv.1 != id) ∧
    hasPanel (unregisterPanelEffect id st).panels id = false ∧
    (unregisterPanelEffect id st).sizes = st.sizes := by
  have h1 : (unregisterPanelEffect id st).panels = st.panels.filter fun kv => kv.1 != id := by
    unfold unregisterPanelEffect unregisterPanel
    rw [h]
    simp
  exact ⟨h1, by rw [h1]; exact hasPanel_filter_ne st.panels id, rfl⟩

/-- Witness for the amended C8: unregistering "p2" from the 70/30 group
removes the panel and leaves the sizes untouched. -/
theorem unregister_removes_panel_only_witness :
    (unregisterPanelEffect "p2" preUnregisterState).panels =
      preUnregisterState.panels.filter (fun kv => kv.1 != "p2") ∧
    hasPanel (unregisterPanelEffect "p2" preUnregisterState).panels "p2" = false ∧
    (unregisterPanelEffect "p2" preUnregisterState).sizes = preUnregisterState.sizes :=
  unregister_removes_panel_only "p2" preUnregisterState
    (by simp [hasPanel, preUnregisterState])

/-- A two-panel group with handle "h1" currently dragging at offset 5. -/
def draggingState : GroupState :=
  ⟨.horizontal, demoPanelsMap, [50, 50], some "h1", 5⟩

/-- C9 counterexample: with "h1" dragging, a drag-start on "h2" is not
ignored — the active handle id is replaced by "h2" and the drag offset is
recaptured, so the drag session state changes. -/
theorem second_drag_start_not_ignored :
    draggingState.activeHandleId = some "h1" ∧
    (startDragging "h2" 7 draggingState).activeHandleId = some "h2" ∧
    (startDragging "h2" 7 draggingState).activeHandleId ≠ draggingState.activeHandleId ∧
    (startDragging "h2" 7 draggingState).dragOffset ≠ draggingState.dragOffset := by
  refine ⟨rfl, rfl, by simp [startDragging, draggingState], ?_⟩
  simp [startDragging, draggingState]

/-- C9 amended: `startDragging` applies a preempt policy — a drag-start on
any handle unconditionally makes it the active handle and recaptures the
drag offset, also while another handle is dragging; no error is raised and
panels and sizes are untouched. -/
theorem drag_start_preempts (id : String) (offset : ℚ) (st : GroupState) :
    (startDragging id offset st).activeHandleId = some id ∧
    (startDragging id offset st).dragOffset = offset ∧
    (startDragging id offset st).panels = st.panels ∧
    (startDragging id offset st).sizes = st.sizes :=
  ⟨rfl, rfl, rfl, rfl⟩

/-- C10: the save effect writes nothing when persistence is not configured
or the layout is not settled — with `autoSaveId` absent, or `sizes` empty,
or `sizes.length` different from `panels.size`, the store is returned
unchanged, so a partially-settled layout is never written. -/
theorem save_only_when_settled (autoSaveId : Option String) (st : GroupState)
    (store : Store)
    (h : autoSaveId = none ∨ st.sizes.length = 0 ∨ st.sizes.length ≠ st.panels.length) :
    saveSizesEffect autoSaveId st store = store := by
  rcases h with h | h
  · rw [h]
    rfl
  · cases autoSaveId with
    | none => rfl
    | some key =>
        simp only [saveSizesEffect]
        rw [if_pos h]

/-- Witness for C10: an unsettled group (two panels, empty sizes) with
persistence configured leaves the store untouched. -/
theorem save_only_when_settled_witness :
    saveSizesEffect (some "group1") overfullState [] = [] :=
  save_only_when_settled (some "group1") overfullState []
    (Or.inr (Or.inl (by simp [overfullState])))
